import Mathlib

/-!
Verification of the `noSelfAssign` lint rule
(`crates/biome_js_analyze/src/lint/correctness/no_self_assign.rs`).

The Rust source is shallowly embedded: syntax nodes become inductive trees,
`SyntaxResult<T>` children become explicit ok/err wrappers (a missing child from
parse-error recovery is `err`), tokens become `Option JsSyntaxToken` (a missing
token is `none`), and the two iterator state machines of the source
(`SameIdentifiers` and `AnyJsAssignmentExpressionLikeIterator`) become explicit
state-passing step functions driven by a fuel parameter; the fuel supplied by
the entry point is proved sufficient below, which is the termination argument
for the traversal.
-/

/-! ## Tokens -/

/-- Token kinds, reduced to the single distinction `inner_string_text` cares
about: string-literal tokens have their quotes stripped, all other tokens are
compared by their trimmed text. -/
inductive JsSyntaxKind where
  | jsStringLiteral
  | otherKind
deriving DecidableEq, Repr

/-- A syntax token: its kind and its trimmed source text. -/
structure JsSyntaxToken where
  kind : JsSyntaxKind
  text : String
deriving DecidableEq, Repr

/-- Modelled from the spec: `inner_string_text` (from `biome_js_syntax`, whose
source is not part of this repository snapshot) returns, for string literals,
"the unquoted inner text", and otherwise the trimmed token text. A
string-literal token stores its quotes in `text`, so the inner text drops one
delimiter character from each end. -/
def inner_string_text (token : JsSyntaxToken) : String :=
  if token.kind = JsSyntaxKind.jsStringLiteral then
    (token.text.drop 1).dropRight 1
  else
    token.text

/-- Convenience: an identifier-like token (kind is not a string literal). -/
def identToken (s : String) : JsSyntaxToken :=
  { kind := JsSyntaxKind.otherKind, text := s }

/-- Convenience: a string-literal token; `s` is the raw text with quotes. -/
def strToken (s : String) : JsSyntaxToken :=
  { kind := JsSyntaxKind.jsStringLiteral, text := s }

/-! ## Terminal nodes -/

/-- `JsName` node: a static member name such as the `b` of `a.b`.
`value_token` is `none` when the token is missing (parse-error recovery). -/
structure JsName where
  value_token : Option JsSyntaxToken
deriving DecidableEq, Repr

/-- `JsPrivateName` node: `#b` in `a.#b`. -/
structure JsPrivateName where
  value_token : Option JsSyntaxToken
deriving DecidableEq, Repr

/-- `JsReferenceIdentifier` node: an identifier used as an expression. -/
structure JsReferenceIdentifier where
  value_token : Option JsSyntaxToken
deriving DecidableEq, Repr

/-- `JsIdentifierAssignment` node: an identifier used as an assignment target. -/
structure JsIdentifierAssignment where
  name_token : Option JsSyntaxToken
deriving DecidableEq, Repr

/-- `AnyJsName = JsName | JsPrivateName`. -/
inductive AnyJsName where
  | jsName (n : JsName)
  | jsPrivateName (n : JsPrivateName)
deriving DecidableEq, Repr

/-- `AnyJsLiteralExpression`: the closed set of literal expression nodes, each
carrying its value token (`none` when missing). -/
inductive AnyJsLiteralExpression where
  | jsStringLiteralExpression (value_token : Option JsSyntaxToken)
  | jsNumberLiteralExpression (value_token : Option JsSyntaxToken)
  | jsBooleanLiteralExpression (value_token : Option JsSyntaxToken)
  | jsNullLiteralExpression (value_token : Option JsSyntaxToken)
  | jsBigintLiteralExpression (value_token : Option JsSyntaxToken)
  | jsRegexLiteralExpression (value_token : Option JsSyntaxToken)
deriving DecidableEq, Repr

/-! ## Expression trees (the right-hand side of an assignment)

Recursive children go through bespoke ok/err wrappers and list types inside one
mutual block so that all functions over them are structurally recursive.
`SRExpr.err` models a `SyntaxResult` holding a `SyntaxError` (missing child);
`SRArrayElement.err` / `SRObjectMember.err` model an errored element of a
separated list, as produced by `AstSeparatedListNodesIterator`. -/

mutual
/-- `AnyJsExpression`, restricted to the constructors the rule inspects;
`otherExpression` stands for every other expression form (calls, `this`,
parenthesized expressions, ...). -/
inductive AnyJsExpression where
  | jsIdentifierExpression (name : Option JsReferenceIdentifier)
  | anyJsLiteralExpression (literal : AnyJsLiteralExpression)
  | jsStaticMemberExpression (object : SRExpr) (member : Option AnyJsName)
  | jsComputedMemberExpression (object : SRExpr) (member : SRExpr)
  | jsArrayExpression (elements : ArrayElementList)
  | jsObjectExpression (members : ObjectMemberList)
  | otherExpression

/-- `SyntaxResult<AnyJsExpression>`. -/
inductive SRExpr where
  | ok (expression : AnyJsExpression)
  | err

/-- The element list of a `JsArrayExpression`. -/
inductive ArrayElementList where
  | nil
  | cons (head : SRArrayElement) (tail : ArrayElementList)

/-- `SyntaxResult<AnyJsArrayElement>`: one entry of the separated element list. -/
inductive SRArrayElement where
  | ok (element : AnyJsArrayElement)
  | err

/-- `AnyJsArrayElement = AnyJsExpression | JsArrayHole | JsSpread`;
the non-expression forms are collapsed into `otherElement`. -/
inductive AnyJsArrayElement where
  | anyJsExpression (expression : AnyJsExpression)
  | otherElement

/-- The member list of a `JsObjectExpression`. -/
inductive ObjectMemberList where
  | nil
  | cons (head : SRObjectMember) (tail : ObjectMemberList)

/-- `SyntaxResult<AnyJsObjectMember>`. -/
inductive SRObjectMember where
  | ok (member : AnyJsObjectMember)
  | err

/-- `AnyJsObjectMember`; only the shorthand and `key: value` property forms are
distinguished, every other member kind (getters, setters, methods, spread) is
`otherMember`. `JsPropertyObjectMember` keeps its key (`name`) even though the
rule never reads it. -/
inductive AnyJsObjectMember where
  | jsShorthandPropertyObjectMember (name : Option JsReferenceIdentifier)
  | jsPropertyObjectMember (name : Option JsSyntaxToken) (value : SRExpr)
  | otherMember
end

/-! ## Assignment-pattern trees (the left-hand side of an assignment) -/

mutual
/-- `AnyJsAssignmentPattern`. -/
inductive AnyJsAssignmentPattern where
  | anyJsAssignment (assignment : AnyJsAssignment)
  | jsArrayAssignmentPattern (elements : PatternElementList)
  | jsObjectAssignmentPattern (properties : PatternMemberList)

/-- `AnyJsAssignment`, restricted to the constructors the rule matches;
`otherAssignment` stands for the rest (parenthesized assignments, TS forms, ...). -/
inductive AnyJsAssignment where
  | jsIdentifierAssignment (identifier : JsIdentifierAssignment)
  | jsStaticMemberAssignment (object : SRExpr) (member : Option AnyJsName)
  | jsComputedMemberAssignment (object : SRExpr) (member : SRExpr)
  | otherAssignment

/-- The element list of a `JsArrayAssignmentPattern`. -/
inductive PatternElementList where
  | nil
  | cons (head : SRPatternElement) (tail : PatternElementList)

/-- `SyntaxResult<AnyJsArrayAssignmentPatternElement>`. -/
inductive SRPatternElement where
  | ok (element : AnyJsArrayAssignmentPatternElement)
  | err

/-- `AnyJsArrayAssignmentPatternElement`: the plain element form carries its
pattern child and whether a default initializer (`init()`) is present; rest
elements and holes are `otherElement`. -/
inductive AnyJsArrayAssignmentPatternElement where
  | jsArrayAssignmentPatternElement (pattern : SRPattern) (init : Bool)
  | otherElement

/-- `SyntaxResult<AnyJsAssignmentPattern>`. -/
inductive SRPattern where
  | ok (pattern : AnyJsAssignmentPattern)
  | err

/-- The property list of a `JsObjectAssignmentPattern`. -/
inductive PatternMemberList where
  | nil
  | cons (head : SRPatternMember) (tail : PatternMemberList)

/-- `SyntaxResult<AnyJsObjectAssignmentPatternMember>`. -/
inductive SRPatternMember where
  | ok (member : AnyJsObjectAssignmentPatternMember)
  | err

/-- `AnyJsObjectAssignmentPatternMember`; the property form keeps its key
(`member`) even though the rule never reads it; rest elements are `otherMember`. -/
inductive AnyJsObjectAssignmentPatternMember where
  | jsObjectAssignmentPatternShorthandProperty (identifier : Option JsIdentifierAssignment)
  | jsObjectAssignmentPatternProperty (member : Option JsSyntaxToken) (pattern : SRPattern)
  | otherMember
end

/-! ## `AnyNameLike`, `AnyAssignmentExpressionLike` and the member-chain walker -/

/-- `declare_node_union! AnyNameLike = AnyJsName | JsReferenceIdentifier |
AnyJsLiteralExpression`. -/
inductive AnyNameLike where
  | anyJsName (name : AnyJsName)
  | jsReferenceIdentifier (reference : JsReferenceIdentifier)
  | anyJsLiteralExpression (literal : AnyJsLiteralExpression)

/-- `declare_node_union! AnyAssignmentExpressionLike = JsStaticMemberExpression
| JsComputedMemberExpression`: the node held in `current_member_expression`,
with the same children as the corresponding expression constructors. -/
inductive AnyAssignmentExpressionLike where
  | jsStaticMemberExpression (object : SRExpr) (member : Option AnyJsName)
  | jsComputedMemberExpression (object : SRExpr) (member : SRExpr)

/-- The member mapping shared by `from_computed_member_assignment` and
`from_computed_member_expression`: a computed member expression's `member()`
is accepted when it is an identifier reference (whose `name()` must be
present) or a literal; anything else is a `SyntaxError` (`none`). -/
def computedMemberName : AnyJsExpression → Option AnyNameLike
  | AnyJsExpression.jsIdentifierExpression name =>
      name.map AnyNameLike.jsReferenceIdentifier
  | AnyJsExpression.anyJsLiteralExpression node =>
      some (AnyNameLike.anyJsLiteralExpression node)
  | _ => Option.none

/-- `AnyAssignmentExpressionLike::member`. -/
def AnyAssignmentExpressionLike.member : AnyAssignmentExpressionLike → Option AnyNameLike
  | AnyAssignmentExpressionLike.jsStaticMemberExpression _ m =>
      m.map AnyNameLike.anyJsName
  | AnyAssignmentExpressionLike.jsComputedMemberExpression _ m =>
      match m with
      | SRExpr.ok node => computedMemberName node
      | SRExpr.err => Option.none

/-- `AnyAssignmentExpressionLike::object`. -/
def AnyAssignmentExpressionLike.object : AnyAssignmentExpressionLike → Option AnyJsExpression
  | AnyAssignmentExpressionLike.jsStaticMemberExpression o _ =>
      match o with
      | SRExpr.ok e => some e
      | SRExpr.err => Option.none
  | AnyAssignmentExpressionLike.jsComputedMemberExpression o _ =>
      match o with
      | SRExpr.ok e => some e
      | SRExpr.err => Option.none

/-- The state of `AnyJsAssignmentExpressionLikeIterator`. -/
structure AnyJsAssignmentExpressionLikeIterator where
  source_member : AnyNameLike
  source_object : AnyJsExpression
  current_member_expression : Option AnyAssignmentExpressionLike
  drained : Bool

/-- `AnyJsAssignmentExpressionLikeIterator::from_static_member_expression`;
fails (`none`) when `member()` or `object()` is a `SyntaxError`. -/
def from_static_member_expression (object : SRExpr) (member : Option AnyJsName) :
    Option AnyJsAssignmentExpressionLikeIterator := do
  let m ← member
  let o ← match object with
    | SRExpr.ok e => some e
    | SRExpr.err => Option.none
  pure { source_member := AnyNameLike.anyJsName m, source_object := o,
         current_member_expression := Option.none, drained := false }

/-- `AnyJsAssignmentExpressionLikeIterator::from_static_member_assignment`. -/
def from_static_member_assignment (object : SRExpr) (member : Option AnyJsName) :
    Option AnyJsAssignmentExpressionLikeIterator := do
  let m ← member
  let o ← match object with
    | SRExpr.ok e => some e
    | SRExpr.err => Option.none
  pure { source_member := AnyNameLike.anyJsName m, source_object := o,
         current_member_expression := Option.none, drained := false }

/-- `AnyJsAssignmentExpressionLikeIterator::from_computed_member_assignment`. -/
def from_computed_member_assignment (object : SRExpr) (member : SRExpr) :
    Option AnyJsAssignmentExpressionLikeIterator := do
  let mexp ← match member with
    | SRExpr.ok e => some e
    | SRExpr.err => Option.none
  let sm ← computedMemberName mexp
  let o ← match object with
    | SRExpr.ok e => some e
    | SRExpr.err => Option.none
  pure { source_member := sm, source_object := o,
         current_member_expression := Option.none, drained := false }

/-- `AnyJsAssignmentExpressionLikeIterator::from_computed_member_expression`. -/
def from_computed_member_expression (object : SRExpr) (member : SRExpr) :
    Option AnyJsAssignmentExpressionLikeIterator := do
  let mexp ← match member with
    | SRExpr.ok e => some e
    | SRExpr.err => Option.none
  let sm ← computedMemberName mexp
  let o ← match object with
    | SRExpr.ok e => some e
    | SRExpr.err => Option.none
  pure { source_member := sm, source_object := o,
         current_member_expression := Option.none, drained := false }

/-- One step of `<AnyJsAssignmentExpressionLikeIterator as Iterator>::next`,
returning the yielded `(name, reference)` pair and the successor state, or
`none` when the iterator stops (drained, missing child, or a non-member
non-identifier object). -/
def walkerNext (it : AnyJsAssignmentExpressionLikeIterator) :
    Option ((AnyNameLike × Option JsReferenceIdentifier) ×
      AnyJsAssignmentExpressionLikeIterator) :=
  if it.drained then Option.none
  else
    match
      (match it.current_member_expression with
       | some current_member_expression => do
           let n ← current_member_expression.member
           let o ← current_member_expression.object
           pure (n, o)
       | Option.none => some (it.source_member, it.source_object)) with
    | Option.none => Option.none
    | some (name, object) =>
      match object with
      | AnyJsExpression.jsStaticMemberExpression o m =>
          some ((name, Option.none),
            ⟨it.source_member, it.source_object,
              some (AnyAssignmentExpressionLike.jsStaticMemberExpression o m), it.drained⟩)
      | AnyJsExpression.jsIdentifierExpression identifier =>
          match identifier with
          | some reference =>
              some ((name, some reference),
                ⟨it.source_member, it.source_object, it.current_member_expression, true⟩)
          | Option.none => Option.none
      | AnyJsExpression.jsComputedMemberExpression o m =>
          some ((name, Option.none),
            ⟨it.source_member, it.source_object,
              some (AnyAssignmentExpressionLike.jsComputedMemberExpression o m), it.drained⟩)
      | _ => Option.none

/-! ## `IdentifiersLike` and the leaf equality comparator -/

/-- `IdentifiersLike`: the leaf pairs yielded by the traversal. -/
inductive IdentifiersLike where
  | identifierAndReference (left : JsIdentifierAssignment) (right : JsReferenceIdentifier)
  | references (left : JsReferenceIdentifier) (right : JsReferenceIdentifier)
  | name (left : JsName) (right : JsName)
  | privateName (left : JsPrivateName) (right : JsPrivateName)
  | literal (left : AnyJsLiteralExpression) (right : AnyJsLiteralExpression)

/-- `TryFrom<(AnyNameLike, AnyNameLike)> for IdentifiersLike`; `none` models
`Err(())` for a kind mismatch. -/
def IdentifiersLike.tryFromNames : AnyNameLike → AnyNameLike → Option IdentifiersLike
  | AnyNameLike.anyJsName (AnyJsName.jsName left),
    AnyNameLike.anyJsName (AnyJsName.jsName right) =>
      some (IdentifiersLike.name left right)
  | AnyNameLike.anyJsName (AnyJsName.jsPrivateName left),
    AnyNameLike.anyJsName (AnyJsName.jsPrivateName right) =>
      some (IdentifiersLike.privateName left right)
  | AnyNameLike.jsReferenceIdentifier left, AnyNameLike.jsReferenceIdentifier right =>
      some (IdentifiersLike.references left right)
  | AnyNameLike.anyJsLiteralExpression left, AnyNameLike.anyJsLiteralExpression right =>
      some (IdentifiersLike.literal left right)
  | _, _ => Option.none

/-- `with_same_identifiers`: extracts the value tokens of the two sides (any
missing token yields `none`; literal pairs are comparable only when both are
string literals or both are number literals) and compares their
`inner_string_text`. -/
def with_same_identifiers (identifiers_like : IdentifiersLike) : Option Unit := do
  let (left_value, right_value) ←
    match identifiers_like with
    | IdentifiersLike.identifierAndReference left right => do
        let left_value ← left.name_token
        let right_value ← right.value_token
        pure (left_value, right_value)
    | IdentifiersLike.name left right => do
        let left_value ← left.value_token
        let right_value ← right.value_token
        pure (left_value, right_value)
    | IdentifiersLike.privateName left right => do
        let left_value ← left.value_token
        let right_value ← right.value_token
        pure (left_value, right_value)
    | IdentifiersLike.references left right => do
        let left_value ← left.value_token
        let right_value ← right.value_token
        pure (left_value, right_value)
    | IdentifiersLike.literal left right =>
        match left, right with
        | AnyJsLiteralExpression.jsStringLiteralExpression left,
          AnyJsLiteralExpression.jsStringLiteralExpression right => do
            let left_value ← left
            let right_value ← right
            pure (left_value, right_value)
        | AnyJsLiteralExpression.jsNumberLiteralExpression left,
          AnyJsLiteralExpression.jsNumberLiteralExpression right => do
            let left_value ← left
            let right_value ← right
            pure (left_value, right_value)
        | _, _ => Option.none
  if inner_string_text left_value = inner_string_text right_value then
    some ()
  else
    Option.none

/-! ## `AnyAssignmentLike` -/

/-- `AnyAssignmentLike`: the shape of the pair of arms currently being
compared. For `arrays`/`object` the fields are the not-yet-visited suffixes of
the two element lists (the iterator positions); for `staticExpression` they are
the two walker states. -/
inductive AnyAssignmentLike where
  | none
  | identifiers (pair : IdentifiersLike)
  | arrays (left : PatternElementList) (right : ArrayElementList)
  | object (left : PatternMemberList) (right : ObjectMemberList)
  | staticExpression (left : AnyJsAssignmentExpressionLikeIterator)
      (right : AnyJsAssignmentExpressionLikeIterator)

/-- `AnyAssignmentLike::has_sub_structures`. -/
def AnyAssignmentLike.has_sub_structures : AnyAssignmentLike → Bool
  | AnyAssignmentLike.arrays _ _ => true
  | AnyAssignmentLike.object _ _ => true
  | _ => false

/-- `matches!(•, AnyAssignmentLike::None)`. -/
def AnyAssignmentLike.isNone : AnyAssignmentLike → Bool
  | AnyAssignmentLike.none => true
  | _ => false

/-- `TryFrom<(AnyJsAssignmentPattern, AnyJsExpression)> for AnyAssignmentLike`;
`none` models `Err(SyntaxError)` (a required child was missing while building a
walker, or an identifier expression without a name). A mismatched pair of kinds
is `Ok(AnyAssignmentLike::None)`, i.e. `some AnyAssignmentLike.none`. -/
def AnyAssignmentLike.tryFrom :
    AnyJsAssignmentPattern → AnyJsExpression → Option AnyAssignmentLike
  | AnyJsAssignmentPattern.jsArrayAssignmentPattern left,
    AnyJsExpression.jsArrayExpression right =>
      some (AnyAssignmentLike.arrays left right)
  | AnyJsAssignmentPattern.jsObjectAssignmentPattern left,
    AnyJsExpression.jsObjectExpression right =>
      some (AnyAssignmentLike.object left right)
  | AnyJsAssignmentPattern.anyJsAssignment (AnyJsAssignment.jsIdentifierAssignment left),
    AnyJsExpression.jsIdentifierExpression right =>
      (match right with
       | some right_name =>
           some (AnyAssignmentLike.identifiers
             (IdentifiersLike.identifierAndReference left right_name))
       | Option.none => Option.none)
  | AnyJsAssignmentPattern.anyJsAssignment
      (AnyJsAssignment.jsStaticMemberAssignment left_object left_member),
    AnyJsExpression.jsStaticMemberExpression right_object right_member => do
      let left ← from_static_member_assignment left_object left_member
      let right ← from_static_member_expression right_object right_member
      pure (AnyAssignmentLike.staticExpression left right)
  | AnyJsAssignmentPattern.anyJsAssignment
      (AnyJsAssignment.jsComputedMemberAssignment left_object left_member),
    AnyJsExpression.jsComputedMemberExpression right_object right_member => do
      let left ← from_computed_member_assignment left_object left_member
      let right ← from_computed_member_expression right_object right_member
      pure (AnyAssignmentLike.staticExpression left right)
  | _, _ => some AnyAssignmentLike.none

/-! ## The three slot-step functions of `SameIdentifiers` -/

/-- `SameIdentifiers::next_array_assignment`. Pulls one element from each side
(both cursors advance); an errored element makes the whole function return
`none` (Rust `?`), ending the iteration; an element with a default initializer
or an incompatible element pair produces `AnyAssignmentLike::None`. -/
def next_array_assignment (left : PatternElementList) (right : ArrayElementList) :
    Option (AnyAssignmentLike × PatternElementList × ArrayElementList) :=
  match left, right with
  | PatternElementList.cons left_entry ls, ArrayElementList.cons right_entry rs =>
    (match left_entry, right_entry with
     | SRPatternElement.ok left_element, SRArrayElement.ok right_element =>
       (match left_element, right_element with
        | AnyJsArrayAssignmentPatternElement.jsArrayAssignmentPatternElement pat i,
          AnyJsArrayElement.anyJsExpression right_expression =>
          if i then
            some (AnyAssignmentLike.none, ls, rs)
          else
            (match pat with
             | SRPattern.ok p =>
               (match AnyAssignmentLike.tryFrom p right_expression with
                | some new_assignment_like => some (new_assignment_like, ls, rs)
                | Option.none => Option.none)
             | SRPattern.err => Option.none)
        | _, _ => some (AnyAssignmentLike.none, ls, rs))
     | _, _ => Option.none)
  | PatternElementList.nil, ArrayElementList.nil =>
      some (AnyAssignmentLike.none, PatternElementList.nil, ArrayElementList.nil)
  | PatternElementList.nil, ArrayElementList.cons _ rs =>
      some (AnyAssignmentLike.none, PatternElementList.nil, rs)
  | PatternElementList.cons _ ls, ArrayElementList.nil =>
      some (AnyAssignmentLike.none, ls, ArrayElementList.nil)

/-- `SameIdentifiers::next_object_assignment`. -/
def next_object_assignment (left : PatternMemberList) (right : ObjectMemberList) :
    Option (AnyAssignmentLike × PatternMemberList × ObjectMemberList) :=
  match left, right with
  | PatternMemberList.cons left_entry ls, ObjectMemberList.cons right_entry rs => do
      let left_element ←
        (match left_entry with
         | SRPatternMember.ok m => some m
         | SRPatternMember.err => Option.none)
      let right_element ←
        (match right_entry with
         | SRObjectMember.ok m => some m
         | SRObjectMember.err => Option.none)
      let result ←
        (match left_element, right_element with
         | AnyJsObjectAssignmentPatternMember.jsObjectAssignmentPatternShorthandProperty
             identifier,
           AnyJsObjectMember.jsShorthandPropertyObjectMember name => do
             let l ← identifier
             let r ← name
             pure (AnyAssignmentLike.identifiers
               (IdentifiersLike.identifierAndReference l r))
         | AnyJsObjectAssignmentPatternMember.jsObjectAssignmentPatternProperty _ pat,
           AnyJsObjectMember.jsPropertyObjectMember _ value => do
             let l ←
               (match pat with
                | SRPattern.ok p => some p
                | SRPattern.err => Option.none)
             let r ←
               (match value with
                | SRExpr.ok e => some e
                | SRExpr.err => Option.none)
             (match l, r with
              | AnyJsAssignmentPattern.anyJsAssignment
                  (AnyJsAssignment.jsIdentifierAssignment left_identifier),
                AnyJsExpression.jsIdentifierExpression right_identifier => do
                  let right_name ← right_identifier
                  pure (AnyAssignmentLike.identifiers
                    (IdentifiersLike.identifierAndReference left_identifier right_name))
              | AnyJsAssignmentPattern.jsArrayAssignmentPattern left_elements,
                AnyJsExpression.jsArrayExpression right_elements =>
                  pure (AnyAssignmentLike.arrays left_elements right_elements)
              | AnyJsAssignmentPattern.jsObjectAssignmentPattern left_properties,
                AnyJsExpression.jsObjectExpression right_members =>
                  pure (AnyAssignmentLike.object left_properties right_members)
              | _, _ => pure AnyAssignmentLike.none)
         | _, _ => pure AnyAssignmentLike.none)
      pure (result, ls, rs)
  | PatternMemberList.nil, ObjectMemberList.nil =>
      some (AnyAssignmentLike.none, PatternMemberList.nil, ObjectMemberList.nil)
  | PatternMemberList.nil, ObjectMemberList.cons _ rs =>
      some (AnyAssignmentLike.none, PatternMemberList.nil, rs)
  | PatternMemberList.cons _ ls, ObjectMemberList.nil =>
      some (AnyAssignmentLike.none, ls, ObjectMemberList.nil)

/-! ## Chain depth and `next_static_expression` -/

mutual
/-- Depth of the member-access spine of an expression (used only to bound the
recursion depth of `next_static_expression`). -/
def sizeE : AnyJsExpression → Nat
  | AnyJsExpression.jsStaticMemberExpression o _ => 1 + sizeSRExpr o
  | AnyJsExpression.jsComputedMemberExpression o _ => 1 + sizeSRExpr o
  | _ => 1

/-- Spine depth of a possibly-missing expression child. -/
def sizeSRExpr : SRExpr → Nat
  | SRExpr.ok e => sizeE e
  | SRExpr.err => 0
end

/-- Remaining steps a walker can take: zero once drained, otherwise one plus
the spine depth of the object it will descend into next. -/
def wsize (w : AnyJsAssignmentExpressionLikeIterator) : Nat :=
  if w.drained then 0
  else
    1 + (match w.current_member_expression with
         | Option.none => sizeE w.source_object
         | some (AnyAssignmentExpressionLike.jsStaticMemberExpression o _) => sizeSRExpr o
         | some (AnyAssignmentExpressionLike.jsComputedMemberExpression o _) => sizeSRExpr o)

/-- `SameIdentifiers::next_static_expression`. The Rust function is recursive
(it pulls one more level when both references are still missing); the `Nat`
argument is recursion fuel, always called with `wsize left + 1`, which strictly
dominates the recursion depth because every successful `walkerNext` decreases
`wsize`, so the fuel-exhausted branch is unreachable. Returns the produced
shape plus the two advanced walkers; `none` models the Rust function returning
`None` via `?`. -/
def next_static_expression :
    Nat → AnyJsAssignmentExpressionLikeIterator → AnyJsAssignmentExpressionLikeIterator →
    Option (AnyAssignmentLike × AnyJsAssignmentExpressionLikeIterator ×
      AnyJsAssignmentExpressionLikeIterator)
  | 0, left, right => some (AnyAssignmentLike.none, left, right)
  | Nat.succ n, left, right =>
    match walkerNext left, walkerNext right with
    | some ((left_name, left_reference), left'),
      some ((right_name, right_reference), right') =>
      (match IdentifiersLike.tryFromNames left_name right_name with
       | some identifier_like =>
         if (with_same_identifiers identifier_like).isSome then
           match left_reference, right_reference with
           | some left_ref, some right_ref =>
             if (with_same_identifiers
                   (IdentifiersLike.references left_ref right_ref)).isSome then
               match IdentifiersLike.tryFromNames left'.source_member right'.source_member with
               | some source_identifier =>
                   some (AnyAssignmentLike.identifiers source_identifier, left', right')
               | Option.none => Option.none
             else some (AnyAssignmentLike.none, left', right')
           | _, _ => next_static_expression n left' right'
         else some (AnyAssignmentLike.none, left', right')
       | Option.none => some (AnyAssignmentLike.none, left', right'))
    | some (_, left'), Option.none => some (AnyAssignmentLike.none, left', right)
    | Option.none, some (_, right') => some (AnyAssignmentLike.none, left, right')
    | Option.none, Option.none => some (AnyAssignmentLike.none, left, right)

/-! ## The `SameIdentifiers` iterator -/

/-- `SameIdentifiers::next_assignment_like`: one pull on the current shape.
Returns `(yielded shape, updated current shape, updated queue)`; the queue
gains a copy of the advanced current shape when an array/object slot produced
a nested array/object (`has_sub_structures`). `none` models the Rust `?`
propagation, which ends the whole iteration. -/
def next_assignment_like (current : AnyAssignmentLike) (queue : List AnyAssignmentLike) :
    Option (AnyAssignmentLike × AnyAssignmentLike × List AnyAssignmentLike) :=
  match current with
  | AnyAssignmentLike.arrays left right =>
    (match next_array_assignment left right with
     | Option.none => Option.none
     | some (new_assignment_like, left', right') =>
       let current' := AnyAssignmentLike.arrays left' right'
       let queue' :=
         if new_assignment_like.has_sub_structures then queue ++ [current'] else queue
       some (new_assignment_like, current', queue'))
  | AnyAssignmentLike.object left right =>
    (match next_object_assignment left right with
     | Option.none => Option.none
     | some (new_assignment_like, left', right') =>
       let current' := AnyAssignmentLike.object left' right'
       let queue' :=
         if new_assignment_like.has_sub_structures then queue ++ [current'] else queue
       some (new_assignment_like, current', queue'))
  | AnyAssignmentLike.staticExpression left right =>
    (match next_static_expression (wsize left + 1) left right with
     | Option.none => Option.none
     | some (new_assignment_like, left', right') =>
       some (new_assignment_like, AnyAssignmentLike.staticExpression left' right', queue))
  | AnyAssignmentLike.none =>
      some (AnyAssignmentLike.none, AnyAssignmentLike.none, queue)
  | AnyAssignmentLike.identifiers pair =>
      some (AnyAssignmentLike.identifiers pair, AnyAssignmentLike.none, queue)

/-- The fused loop of `<SameIdentifiers as Iterator>::next` together with the
`for` loop of `compare_assignment_like`: every yielded `Identifiers` leaf pair
is filtered through `with_same_identifiers` and accumulated; a yielded `None`
pops the queue (or ends); a yielded sub-structure pushes the current shape onto
the queue and becomes current. After a leaf pair is yielded, the `next()` entry
check (`current` is `None`) is replayed. The `Nat` fuel bounds the number of
loop iterations; `runAux` returns `none` only on fuel exhaustion, which the
entry point's fuel choice precludes (proved below). -/
def runAux : Nat → AnyAssignmentLike → List AnyAssignmentLike → List IdentifiersLike →
    Option (List IdentifiersLike)
  | 0, _, _, _ => Option.none
  | Nat.succ n, current, queue, acc =>
    match next_assignment_like current queue with
    | Option.none => some acc.reverse
    | some (new_assignment_like, current', queue') =>
      match new_assignment_like with
      | AnyAssignmentLike.identifiers identifier_like =>
          let acc' :=
            if (with_same_identifiers identifier_like).isSome then identifier_like :: acc
            else acc
          if current'.isNone then some acc'.reverse
          else runAux n current' queue' acc'
      | AnyAssignmentLike.none =>
          (match queue' with
           | [] => some acc.reverse
           | pair :: rest => runAux n pair rest acc)
      | sub => runAux n sub (queue' ++ [current']) acc

/-! ## Termination measure for the traversal -/

/-- Measure contribution of one `AnyJsAssignment` slot (the non-composite
left-hand forms). -/
def assignmentMeasure : AnyJsAssignment → Nat
  | AnyJsAssignment.jsIdentifierAssignment _ => 1
  | AnyJsAssignment.jsStaticMemberAssignment _ _ => 3
  | AnyJsAssignment.jsComputedMemberAssignment _ _ => 3
  | AnyJsAssignment.otherAssignment => 1

mutual
/-- Measure of a left-hand pattern: an upper bound for the measure of any
shape `AnyAssignmentLike.tryFrom` can classify it into. -/
def patMeasure : AnyJsAssignmentPattern → Nat
  | AnyJsAssignmentPattern.anyJsAssignment a => assignmentMeasure a
  | AnyJsAssignmentPattern.jsArrayAssignmentPattern l => arrMeasure l
  | AnyJsAssignmentPattern.jsObjectAssignmentPattern l => objMeasure l

/-- Measure of a remaining array-pattern element list. The factor 2 accounts
for the double enqueue of the suspended parent when a slot is itself composite. -/
def arrMeasure : PatternElementList → Nat
  | PatternElementList.nil => 0
  | PatternElementList.cons e ls => 3 + arrSlotMeasure e + 2 * arrMeasure ls

/-- Measure of one (possibly errored) array-pattern element. -/
def arrSlotMeasure : SRPatternElement → Nat
  | SRPatternElement.err => 0
  | SRPatternElement.ok e => arrElemMeasure e

/-- Measure of one array-pattern element. -/
def arrElemMeasure : AnyJsArrayAssignmentPatternElement → Nat
  | AnyJsArrayAssignmentPatternElement.jsArrayAssignmentPatternElement p _ => srPatMeasure p
  | AnyJsArrayAssignmentPatternElement.otherElement => 0

/-- Measure of a possibly-missing pattern child. -/
def srPatMeasure : SRPattern → Nat
  | SRPattern.ok p => patMeasure p
  | SRPattern.err => 0

/-- Measure of a remaining object-pattern member list. -/
def objMeasure : PatternMemberList → Nat
  | PatternMemberList.nil => 0
  | PatternMemberList.cons e ls => 3 + objSlotMeasure e + 2 * objMeasure ls

/-- Measure of one (possibly errored) object-pattern member. -/
def objSlotMeasure : SRPatternMember → Nat
  | SRPatternMember.err => 0
  | SRPatternMember.ok m => objMemberMeasure m

/-- Measure of one object-pattern member. -/
def objMemberMeasure : AnyJsObjectAssignmentPatternMember → Nat
  | AnyJsObjectAssignmentPatternMember.jsObjectAssignmentPatternShorthandProperty _ => 1
  | AnyJsObjectAssignmentPatternMember.jsObjectAssignmentPatternProperty _ p => srPatMeasure p
  | AnyJsObjectAssignmentPatternMember.otherMember => 0
end

/-- Measure of a shape: strict upper bound (minus one) for the loop iterations
it can still cause. -/
def alMeasure : AnyAssignmentLike → Nat
  | AnyAssignmentLike.none => 0
  | AnyAssignmentLike.identifiers _ => 1
  | AnyAssignmentLike.arrays l _ => arrMeasure l
  | AnyAssignmentLike.object l _ => objMeasure l
  | AnyAssignmentLike.staticExpression lw _ => if lw.drained then 1 else 3

/-- Measure of the pending queue. -/
def queueMeasure : List AnyAssignmentLike → Nat
  | [] => 0
  | pair :: rest => alMeasure pair + 1 + queueMeasure rest

/-! ## Entry point -/

/-- `compare_assignment_like`: starts a `SameIdentifiers` iteration with an
empty queue and collects every leaf pair that passes `with_same_identifiers`.
The fuel `alMeasure ... + 1` is proved sufficient below. The initial
`AnyAssignmentLike::None` entry check of `next()` is performed first. -/
def compare_assignment_like (any_assignment_like : AnyAssignmentLike) :
    Option (List IdentifiersLike) :=
  if any_assignment_like.isNone then some []
  else runAux (alMeasure any_assignment_like + 1) any_assignment_like [] []

/-- `JsAssignmentOperator`. -/
inductive JsAssignmentOperator where
  | assign
  | addAssign
  | subtractAssign
  | timesAssign
  | slashAssign
  | remainderAssign
  | exponentAssign
  | leftShiftAssign
  | rightShiftAssign
  | unsignedRightShiftAssign
  | bitwiseAndAssign
  | bitwiseXorAssign
  | bitwiseOrAssign
  | logicalAndAssign
  | logicalOrAssign
  | nullishCoalescingAssign
deriving DecidableEq, Repr

/-- The operator filter of `NoSelfAssign::run`:
`matches!(operator, Assign | LogicalAndAssign | LogicalOrAssign |
NullishCoalescingAssign)`. -/
def isEligibleOperator : JsAssignmentOperator → Bool
  | JsAssignmentOperator.assign => true
  | JsAssignmentOperator.logicalAndAssign => true
  | JsAssignmentOperator.logicalOrAssign => true
  | JsAssignmentOperator.nullishCoalescingAssign => true
  | _ => false

/-- `JsAssignmentExpression`: the query node, with its three possibly-missing
children (`left()`, `right()`, `operator()` are `SyntaxResult`s; `.ok()` turns
them into options). -/
structure JsAssignmentExpression where
  left : Option AnyJsAssignmentPattern
  right : Option AnyJsExpression
  operator : Option JsAssignmentOperator

/-- `NoSelfAssign::run`: the detector entry point. The returned value is
`some signals` (the boxed signal list); `none` occurs only on fuel exhaustion,
which is proved impossible below. -/
def NoSelfAssign.run (node : JsAssignmentExpression) : Option (List IdentifiersLike) :=
  match node.operator with
  | some operator =>
    if isEligibleOperator operator then
      match node.left, node.right with
      | some left, some right =>
        (match AnyAssignmentLike.tryFrom left right with
         | some pair => compare_assignment_like pair
         | Option.none => some [])
      | _, _ => some []
    else some []
  | Option.none => some []

/-! ## Construction helpers for concrete syntax trees -/

/-- A present `JsReferenceIdentifier` with identifier text `s`. -/
def refIdent (s : String) : JsReferenceIdentifier :=
  { value_token := some (identToken s) }

/-- A present `JsIdentifierAssignment` with identifier text `s`. -/
def identAssign (s : String) : JsIdentifierAssignment :=
  { name_token := some (identToken s) }

/-- A present `JsName` with text `s`. -/
def jsNameOf (s : String) : JsName :=
  { value_token := some (identToken s) }

/-- The expression `s` (an identifier reference). -/
def identExpr (s : String) : AnyJsExpression :=
  AnyJsExpression.jsIdentifierExpression (some (refIdent s))

/-- The assignment target `s` (a plain identifier). -/
def identPattern (s : String) : AnyJsAssignmentPattern :=
  AnyJsAssignmentPattern.anyJsAssignment
    (AnyJsAssignment.jsIdentifierAssignment (identAssign s))

/-- Builds an `ArrayElementList` from a `List`. -/
def arrayElementsOf : List SRArrayElement → ArrayElementList
  | [] => ArrayElementList.nil
  | e :: ls => ArrayElementList.cons e (arrayElementsOf ls)

/-- Builds an `ObjectMemberList` from a `List`. -/
def objectMembersOf : List SRObjectMember → ObjectMemberList
  | [] => ObjectMemberList.nil
  | e :: ls => ObjectMemberList.cons e (objectMembersOf ls)

/-- Builds a `PatternElementList` from a `List`. -/
def patternElementsOf : List SRPatternElement → PatternElementList
  | [] => PatternElementList.nil
  | e :: ls => PatternElementList.cons e (patternElementsOf ls)

/-- Builds a `PatternMemberList` from a `List`. -/
def patternMembersOf : List SRPatternMember → PatternMemberList
  | [] => PatternMemberList.nil
  | e :: ls => PatternMemberList.cons e (patternMembersOf ls)

/-- A plain (no default) array-pattern element holding pattern `p`. -/
def arrayPatternElement (p : AnyJsAssignmentPattern) : SRPatternElement :=
  SRPatternElement.ok
    (AnyJsArrayAssignmentPatternElement.jsArrayAssignmentPatternElement (SRPattern.ok p) false)

/-- An array-pattern element holding pattern `p` with a default initializer. -/
def arrayPatternElementWithInit (p : AnyJsAssignmentPattern) : SRPatternElement :=
  SRPatternElement.ok
    (AnyJsArrayAssignmentPatternElement.jsArrayAssignmentPatternElement (SRPattern.ok p) true)

/-- An array-literal element holding expression `e`. -/
def arrayElement (e : AnyJsExpression) : SRArrayElement :=
  SRArrayElement.ok (AnyJsArrayElement.anyJsExpression e)

/-- An assignment expression node `l op r` with all children present. -/
def mkAssignment (l : AnyJsAssignmentPattern) (op : JsAssignmentOperator)
    (r : AnyJsExpression) : JsAssignmentExpression :=
  { left := some l, right := some r, operator := some op }

/-! ## Node counts of the two operand trees -/

mutual
/-- Total node count of an expression tree. -/
def exprNodeCount : AnyJsExpression → Nat
  | AnyJsExpression.jsIdentifierExpression name =>
      1 + (match name with | some _ => 1 | Option.none => 0)
  | AnyJsExpression.anyJsLiteralExpression _ => 2
  | AnyJsExpression.jsStaticMemberExpression o m =>
      1 + srExprNodeCount o + (match m with | some _ => 1 | Option.none => 0)
  | AnyJsExpression.jsComputedMemberExpression o m =>
      1 + srExprNodeCount o + srExprNodeCount m
  | AnyJsExpression.jsArrayExpression els => 1 + arrayElementListNodeCount els
  | AnyJsExpression.jsObjectExpression ms => 1 + objectMemberListNodeCount ms
  | AnyJsExpression.otherExpression => 1

/-- Node count of a possibly-missing expression child. -/
def srExprNodeCount : SRExpr → Nat
  | SRExpr.ok e => exprNodeCount e
  | SRExpr.err => 0

/-- Node count of an array-literal element list. -/
def arrayElementListNodeCount : ArrayElementList → Nat
  | ArrayElementList.nil => 0
  | ArrayElementList.cons e ls => srArrayElementNodeCount e + arrayElementListNodeCount ls

/-- Node count of one (possibly errored) array-literal element. -/
def srArrayElementNodeCount : SRArrayElement → Nat
  | SRArrayElement.ok e => arrayElemNodeCount e
  | SRArrayElement.err => 0

/-- Node count of one array-literal element. -/
def arrayElemNodeCount : AnyJsArrayElement → Nat
  | AnyJsArrayElement.anyJsExpression e => exprNodeCount e
  | AnyJsArrayElement.otherElement => 1

/-- Node count of an object-literal member list. -/
def objectMemberListNodeCount : ObjectMemberList → Nat
  | ObjectMemberList.nil => 0
  | ObjectMemberList.cons m ms => srObjectMemberNodeCount m + objectMemberListNodeCount ms

/-- Node count of one (possibly errored) object-literal member. -/
def srObjectMemberNodeCount : SRObjectMember → Nat
  | SRObjectMember.ok m => objectMemberNodeCount m
  | SRObjectMember.err => 0

/-- Node count of one object-literal member. -/
def objectMemberNodeCount : AnyJsObjectMember → Nat
  | AnyJsObjectMember.jsShorthandPropertyObjectMember name =>
      1 + (match name with | some _ => 1 | Option.none => 0)
  | AnyJsObjectMember.jsPropertyObjectMember _ v => 2 + srExprNodeCount v
  | AnyJsObjectMember.otherMember => 1
end

/-- Node count of an `AnyJsAssignment` target. -/
def anyAssignmentNodeCount : AnyJsAssignment → Nat
  | AnyJsAssignment.jsIdentifierAssignment _ => 1
  | AnyJsAssignment.jsStaticMemberAssignment o m =>
      1 + srExprNodeCount o + (match m with | some _ => 1 | Option.none => 0)
  | AnyJsAssignment.jsComputedMemberAssignment o m =>
      1 + srExprNodeCount o + srExprNodeCount m
  | AnyJsAssignment.otherAssignment => 1

mutual
/-- Total node count of an assignment-pattern tree. -/
def patNodeCount : AnyJsAssignmentPattern → Nat
  | AnyJsAssignmentPattern.anyJsAssignment a => anyAssignmentNodeCount a
  | AnyJsAssignmentPattern.jsArrayAssignmentPattern l => 1 + patternElementListNodeCount l
  | AnyJsAssignmentPattern.jsObjectAssignmentPattern l => 1 + patternMemberListNodeCount l

/-- Node count of an array-pattern element list. -/
def patternElementListNodeCount : PatternElementList → Nat
  | PatternElementList.nil => 0
  | PatternElementList.cons e ls => srPatternElementNodeCount e + patternElementListNodeCount ls

/-- Node count of one (possibly errored) array-pattern element. -/
def srPatternElementNodeCount : SRPatternElement → Nat
  | SRPatternElement.ok e => patternElemNodeCount e
  | SRPatternElement.err => 0

/-- Node count of one array-pattern element. -/
def patternElemNodeCount : AnyJsArrayAssignmentPatternElement → Nat
  | AnyJsArrayAssignmentPatternElement.jsArrayAssignmentPatternElement p i =>
      1 + srPatternNodeCount p + (if i then 1 else 0)
  | AnyJsArrayAssignmentPatternElement.otherElement => 1

/-- Node count of a possibly-missing pattern child. -/
def srPatternNodeCount : SRPattern → Nat
  | SRPattern.ok p => patNodeCount p
  | SRPattern.err => 0

/-- Node count of an object-pattern member list. -/
def patternMemberListNodeCount : PatternMemberList → Nat
  | PatternMemberList.nil => 0
  | PatternMemberList.cons m ms => srPatternMemberNodeCount m + patternMemberListNodeCount ms

/-- Node count of one (possibly errored) object-pattern member. -/
def srPatternMemberNodeCount : SRPatternMember → Nat
  | SRPatternMember.ok m => patternMemberNodeCount m
  | SRPatternMember.err => 0

/-- Node count of one object-pattern member. -/
def patternMemberNodeCount : AnyJsObjectAssignmentPatternMember → Nat
  | AnyJsObjectAssignmentPatternMember.jsObjectAssignmentPatternShorthandProperty name =>
      1 + (match name with | some _ => 1 | Option.none => 0)
  | AnyJsObjectAssignmentPatternMember.jsObjectAssignmentPatternProperty _ p =>
      2 + srPatternNodeCount p
  | AnyJsObjectAssignmentPatternMember.otherMember => 1
end

/-- Total node count of the two operand trees of an assignment expression. -/
def operandNodeCount (node : JsAssignmentExpression) : Nat :=
  (match node.left with
   | some p => patNodeCount p
   | Option.none => 0) +
  (match node.right with
   | some e => exprNodeCount e
   | Option.none => 0)

/-! ## Concrete example trees -/

/-- The array-destructuring target `[ps...]`. -/
def arrayPatternOf (ps : List SRPatternElement) : AnyJsAssignmentPattern :=
  AnyJsAssignmentPattern.jsArrayAssignmentPattern (patternElementsOf ps)

/-- The array literal `[es...]`. -/
def arrayExprOf (es : List SRArrayElement) : AnyJsExpression :=
  AnyJsExpression.jsArrayExpression (arrayElementsOf es)

/-- A present static member name. -/
def staticMemberName (s : String) : Option AnyJsName :=
  some (AnyJsName.jsName (jsNameOf s))

/-- The expression `base[key]` with an identifier key. -/
def computedIdentExpr (base key : String) : AnyJsExpression :=
  AnyJsExpression.jsComputedMemberExpression (SRExpr.ok (identExpr base))
    (SRExpr.ok (identExpr key))

/-- The expression `base[lit]` with a literal key. -/
def computedLitExpr (base : String) (lit : AnyJsLiteralExpression) : AnyJsExpression :=
  AnyJsExpression.jsComputedMemberExpression (SRExpr.ok (identExpr base))
    (SRExpr.ok (AnyJsExpression.anyJsLiteralExpression lit))

/-- The target `base[key].mem` (a static member assignment whose object is a
computed member expression). -/
def chainTarget (base key mem : String) : AnyJsAssignmentPattern :=
  AnyJsAssignmentPattern.anyJsAssignment
    (AnyJsAssignment.jsStaticMemberAssignment (SRExpr.ok (computedIdentExpr base key))
      (staticMemberName mem))

/-- The value `base[key].mem`. -/
def chainValue (base key mem : String) : AnyJsExpression :=
  AnyJsExpression.jsStaticMemberExpression (SRExpr.ok (computedIdentExpr base key))
    (staticMemberName mem)

/-- The assignment `baseL[keyL].memL = baseR[keyR].memR`. -/
def chainAssignment (baseL keyL memL baseR keyR memR : String) : JsAssignmentExpression :=
  mkAssignment (chainTarget baseL keyL memL) JsAssignmentOperator.assign
    (chainValue baseR keyR memR)

/-- A number literal expression with raw source text `s`. -/
def numberLit (s : String) : AnyJsLiteralExpression :=
  AnyJsLiteralExpression.jsNumberLiteralExpression (some (identToken s))

/-- `a[numL].foo = a[numR].foo` with number-literal keys. -/
def numericKeyChainAssignment (numL numR : String) : JsAssignmentExpression :=
  mkAssignment
    (AnyJsAssignmentPattern.anyJsAssignment
      (AnyJsAssignment.jsStaticMemberAssignment
        (SRExpr.ok (computedLitExpr "a" (numberLit numL))) (staticMemberName "foo")))
    JsAssignmentOperator.assign
    (AnyJsExpression.jsStaticMemberExpression
      (SRExpr.ok (computedLitExpr "a" (numberLit numR))) (staticMemberName "foo"))

/-- The empty array pattern `[]`. -/
def emptyArrayPattern : AnyJsAssignmentPattern := arrayPatternOf []

/-- The empty array literal `[]`. -/
def emptyArrayExpr : AnyJsExpression := arrayExprOf []

/-- The assignment `[[], a] = [[], a]`: one nested (empty) composite slot
followed by one matching identifier slot. -/
def nestedThenMatchAssignment : JsAssignmentExpression :=
  mkAssignment
    (arrayPatternOf [arrayPatternElement emptyArrayPattern,
      arrayPatternElement (identPattern "a")])
    JsAssignmentOperator.assign
    (arrayExprOf [arrayElement emptyArrayExpr, arrayElement (identExpr "a")])

/-- The assignment `[[], [], [], [], [], a] = [[], [], [], [], [], a]`:
five nested empty composites, then one matching identifier slot. -/
def fiveNestedAssignment : JsAssignmentExpression :=
  mkAssignment
    (arrayPatternOf [arrayPatternElement emptyArrayPattern,
      arrayPatternElement emptyArrayPattern, arrayPatternElement emptyArrayPattern,
      arrayPatternElement emptyArrayPattern, arrayPatternElement emptyArrayPattern,
      arrayPatternElement (identPattern "a")])
    JsAssignmentOperator.assign
    (arrayExprOf [arrayElement emptyArrayExpr, arrayElement emptyArrayExpr,
      arrayElement emptyArrayExpr, arrayElement emptyArrayExpr,
      arrayElement emptyArrayExpr, arrayElement (identExpr "a")])

/-- The assignment `[x] = [y]` (single array slot, no default). -/
def singleSlotAssignment (x y : String) : JsAssignmentExpression :=
  mkAssignment (arrayPatternOf [arrayPatternElement (identPattern x)])
    JsAssignmentOperator.assign (arrayExprOf [arrayElement (identExpr y)])

/-- The assignment `[x = default] = [y]` (single array slot with a default
initializer). -/
def defaultSlotAssignment (x y : String) : JsAssignmentExpression :=
  mkAssignment (arrayPatternOf [arrayPatternElementWithInit (identPattern x)])
    JsAssignmentOperator.assign (arrayExprOf [arrayElement (identExpr y)])

/-- The assignment `[a, b] = [b, a]`. -/
def swappedPairAssignment : JsAssignmentExpression :=
  mkAssignment
    (arrayPatternOf [arrayPatternElement (identPattern "a"),
      arrayPatternElement (identPattern "b")])
    JsAssignmentOperator.assign
    (arrayExprOf [arrayElement (identExpr "b"), arrayElement (identExpr "a")])

/-- The assignment `({keyL: vL} = {keyR: vR})` with non-shorthand properties;
the two keys are arbitrary (possibly missing) tokens. -/
def propertyPairAssignment (keyL keyR : Option JsSyntaxToken) (vL vR : String) :
    JsAssignmentExpression :=
  mkAssignment
    (AnyJsAssignmentPattern.jsObjectAssignmentPattern (patternMembersOf
      [SRPatternMember.ok
        (AnyJsObjectAssignmentPatternMember.jsObjectAssignmentPatternProperty keyL
          (SRPattern.ok (identPattern vL)))]))
    JsAssignmentOperator.assign
    (AnyJsExpression.jsObjectExpression (objectMembersOf
      [SRObjectMember.ok
        (AnyJsObjectMember.jsPropertyObjectMember keyR (SRExpr.ok (identExpr vR)))]))

/-- A boolean literal with raw text `s`. -/
def booleanLit (s : String) : AnyJsLiteralExpression :=
  AnyJsLiteralExpression.jsBooleanLiteralExpression (some (identToken s))

/-- The assignment `a[true].x = a[true].x` (boolean-literal computed keys,
textually identical). -/
def booleanKeyChainAssignment : JsAssignmentExpression :=
  mkAssignment
    (AnyJsAssignmentPattern.anyJsAssignment
      (AnyJsAssignment.jsStaticMemberAssignment
        (SRExpr.ok (computedLitExpr "a" (booleanLit "true"))) (staticMemberName "x")))
    JsAssignmentOperator.assign
    (AnyJsExpression.jsStaticMemberExpression
      (SRExpr.ok (computedLitExpr "a" (booleanLit "true"))) (staticMemberName "x"))

/-- The assignment `a &= a`. -/
def bitwiseAndSelfAssignment : JsAssignmentExpression :=
  mkAssignment (identPattern "a") JsAssignmentOperator.bitwiseAndAssign (identExpr "a")

/-- The assignment `a = a`. -/
def plainSelfAssignment : JsAssignmentExpression :=
  mkAssignment (identPattern "a") JsAssignmentOperator.assign (identExpr "a")

/-- An assignment expression whose member-access operands have missing
children (`object()` and `member()` both `SyntaxError`s), as produced by
parse-error recovery. -/
def errChildrenAssignment : JsAssignmentExpression :=
  { left := some (AnyJsAssignmentPattern.anyJsAssignment
      (AnyJsAssignment.jsStaticMemberAssignment SRExpr.err Option.none)),
    right := some (AnyJsExpression.jsStaticMemberExpression SRExpr.err Option.none),
    operator := some JsAssignmentOperator.assign }

/-- An assignment expression whose operator token is missing. -/
def missingOperatorAssignment : JsAssignmentExpression :=
  { left := some (identPattern "a"), right := some (identExpr "a"),
    operator := Option.none }

/-! ## Lemmas: every walker step and slot step respects the measure -/

theorem walkerNext_drained_spec {w : AnyJsAssignmentExpressionLikeIterator}
    {x : (AnyNameLike × Option JsReferenceIdentifier) × AnyJsAssignmentExpressionLikeIterator}
    (h : walkerNext w = some x) :
    w.drained = false ∧ x.2.drained = x.1.2.isSome := by
  obtain ⟨sm, so, cme, dr⟩ := w
  cases dr with
  | true => simp [walkerNext] at h
  | false =>
    refine ⟨rfl, ?_⟩
    cases cme with
    | none =>
      cases so <;>
        simp [walkerNext, AnyAssignmentExpressionLike.member,
          AnyAssignmentExpressionLike.object] at h <;>
        try (obtain ⟨rfl, rfl⟩ := h; rfl)
      case jsIdentifierExpression name =>
        cases name with
        | none => simp at h
        | some r => obtain ⟨rfl, rfl⟩ := h; rfl
    | some c =>
      cases c with
      | jsStaticMemberExpression o m =>
        cases m with
        | none =>
          simp [walkerNext, AnyAssignmentExpressionLike.member,
            AnyAssignmentExpressionLike.object] at h
        | some mm =>
          cases o with
          | err =>
            simp [walkerNext, AnyAssignmentExpressionLike.member,
              AnyAssignmentExpressionLike.object] at h
          | ok e =>
            cases e <;>
              simp [walkerNext, AnyAssignmentExpressionLike.member,
                AnyAssignmentExpressionLike.object] at h <;>
              try (obtain ⟨rfl, rfl⟩ := h; rfl)
            case jsIdentifierExpression name =>
              cases name with
              | none => simp at h
              | some r => obtain ⟨rfl, rfl⟩ := h; rfl
      | jsComputedMemberExpression o m =>
        cases m with
        | err =>
          simp [walkerNext, AnyAssignmentExpressionLike.member,
            AnyAssignmentExpressionLike.object] at h
        | ok me =>
          cases hn : computedMemberName me with
          | none =>
            simp [walkerNext, AnyAssignmentExpressionLike.member,
              AnyAssignmentExpressionLike.object, hn] at h
          | some nm =>
            cases o with
            | err =>
              simp [walkerNext, AnyAssignmentExpressionLike.member,
                AnyAssignmentExpressionLike.object, hn] at h
            | ok e =>
              cases e <;>
                simp [walkerNext, AnyAssignmentExpressionLike.member,
                  AnyAssignmentExpressionLike.object, hn] at h <;>
                try (obtain ⟨rfl, rfl⟩ := h; rfl)
              case jsIdentifierExpression name =>
                cases name with
                | none => simp at h
                | some r => obtain ⟨rfl, rfl⟩ := h; rfl

theorem next_static_shape :
    ∀ (f : Nat) {l r : AnyJsAssignmentExpressionLikeIterator} {v : AnyAssignmentLike}
      {l' r' : AnyJsAssignmentExpressionLikeIterator},
      next_static_expression f l r = some (v, l', r') →
      v = AnyAssignmentLike.none ∨
        ∃ i, v = AnyAssignmentLike.identifiers i ∧ l.drained = false ∧ l'.drained = true
  | 0, l, r, v, l', r', h => by
      simp [next_static_expression] at h
      exact Or.inl h.1.symm
  | Nat.succ n, l, r, v, l', r', h => by
      rw [next_static_expression] at h
      cases hwl : walkerNext l with
      | none =>
        cases hwr : walkerNext r with
        | none => rw [hwl, hwr] at h; simp at h; exact Or.inl h.1.symm
        | some xr =>
          obtain ⟨⟨rn, rref⟩, r0⟩ := xr
          rw [hwl, hwr] at h; simp at h; exact Or.inl h.1.symm
      | some xl =>
        obtain ⟨⟨ln, lref⟩, l0⟩ := xl
        cases hwr : walkerNext r with
        | none => rw [hwl, hwr] at h; simp at h; exact Or.inl h.1.symm
        | some xr =>
          obtain ⟨⟨rn, rref⟩, r0⟩ := xr
          rw [hwl, hwr] at h
          dsimp only at h
          cases htf : IdentifiersLike.tryFromNames ln rn with
          | none => rw [htf] at h; dsimp only at h; simp at h; exact Or.inl h.1.symm
          | some il =>
            rw [htf] at h
            dsimp only at h
            cases hsame : (with_same_identifiers il).isSome with
            | false => simp [hsame] at h; exact Or.inl h.1.symm
            | true =>
              simp only [hsame, if_true] at h
              cases lref with
              | some lr =>
                cases rref with
                | some rr =>
                  cases hrefs :
                      (with_same_identifiers (IdentifiersLike.references lr rr)).isSome with
                  | false => simp [hrefs] at h; exact Or.inl h.1.symm
                  | true =>
                    simp only [hrefs, if_true] at h
                    cases hsrc : IdentifiersLike.tryFromNames l0.source_member
                        r0.source_member with
                    | none => rw [hsrc] at h; simp at h
                    | some src =>
                      rw [hsrc] at h
                      simp at h
                      obtain ⟨hv, hl, hr⟩ := h
                      refine Or.inr ⟨src, hv.symm, (walkerNext_drained_spec hwl).1, ?_⟩
                      rw [← hl]
                      have := (walkerNext_drained_spec hwl).2
                      simpa using this
                | none =>
                  rcases next_static_shape n h with hnone | ⟨i, hv, _, hdr⟩
                  · exact Or.inl hnone
                  · exact Or.inr ⟨i, hv, (walkerNext_drained_spec hwl).1, hdr⟩
              | none =>
                rcases next_static_shape n h with hnone | ⟨i, hv, _, hdr⟩
                · exact Or.inl hnone
                · exact Or.inr ⟨i, hv, (walkerNext_drained_spec hwl).1, hdr⟩

theorem from_static_member_assignment_not_drained {o : SRExpr} {m : Option AnyJsName}
    {w : AnyJsAssignmentExpressionLikeIterator}
    (h : from_static_member_assignment o m = some w) : w.drained = false := by
  cases m with
  | none => simp [from_static_member_assignment] at h
  | some mm =>
    cases o with
    | err => simp [from_static_member_assignment] at h
    | ok e =>
      simp [from_static_member_assignment] at h
      rw [← h]

theorem from_computed_member_assignment_not_drained {o m : SRExpr}
    {w : AnyJsAssignmentExpressionLikeIterator}
    (h : from_computed_member_assignment o m = some w) : w.drained = false := by
  cases m with
  | err => simp [from_computed_member_assignment] at h
  | ok me =>
    cases hn : computedMemberName me with
    | none => simp [from_computed_member_assignment, hn] at h
    | some nm =>
      cases o with
      | err => simp [from_computed_member_assignment, hn] at h
      | ok e =>
        simp [from_computed_member_assignment, hn] at h
        rw [← h]

theorem tryFrom_measure {p : AnyJsAssignmentPattern} {e : AnyJsExpression}
    {v : AnyAssignmentLike} (h : AnyAssignmentLike.tryFrom p e = some v) :
    alMeasure v ≤ patMeasure p := by
  cases p with
  | jsArrayAssignmentPattern l =>
    cases e <;> simp [AnyAssignmentLike.tryFrom] at h <;>
      simp [← h, alMeasure, patMeasure]
  | jsObjectAssignmentPattern l =>
    cases e <;> simp [AnyAssignmentLike.tryFrom] at h <;>
      simp [← h, alMeasure, patMeasure]
  | anyJsAssignment a =>
    cases a with
    | jsIdentifierAssignment li =>
      cases e <;> simp [AnyAssignmentLike.tryFrom] at h <;>
        try simp [← h, alMeasure, patMeasure, assignmentMeasure]
      case jsIdentifierExpression name =>
        cases name with
        | none => simp at h
        | some rn =>
          simp at h
          simp [← h, alMeasure, patMeasure, assignmentMeasure]
    | otherAssignment =>
      cases e <;> simp [AnyAssignmentLike.tryFrom] at h <;>
        simp [← h, alMeasure, patMeasure, assignmentMeasure]
    | jsStaticMemberAssignment o m =>
      cases e <;> simp [AnyAssignmentLike.tryFrom] at h <;>
        try simp [← h, alMeasure, patMeasure, assignmentMeasure]
      case jsStaticMemberExpression o2 m2 =>
        cases hfl : from_static_member_assignment o m with
        | none => rw [hfl] at h; simp at h
        | some lw =>
          cases hfr : from_static_member_expression o2 m2 with
          | none => rw [hfl, hfr] at h; simp at h
          | some rw0 =>
            rw [hfl, hfr] at h
            simp at h
            simp [← h, alMeasure, patMeasure, assignmentMeasure,
              from_static_member_assignment_not_drained hfl]
    | jsComputedMemberAssignment o m =>
      cases e <;> simp [AnyAssignmentLike.tryFrom] at h <;>
        try simp [← h, alMeasure, patMeasure, assignmentMeasure]
      case jsComputedMemberExpression o2 m2 =>
        cases hfl : from_computed_member_assignment o m with
        | none => rw [hfl] at h; simp at h
        | some lw =>
          cases hfr : from_computed_member_expression o2 m2 with
          | none => rw [hfl, hfr] at h; simp at h
          | some rw0 =>
            rw [hfl, hfr] at h
            simp at h
            simp [← h, alMeasure, patMeasure, assignmentMeasure,
              from_computed_member_assignment_not_drained hfl]

theorem next_array_cons_spec {le : SRPatternElement} {ls : PatternElementList}
    {re : SRArrayElement} {rs : ArrayElementList} {v : AnyAssignmentLike}
    {l' : PatternElementList} {r' : ArrayElementList}
    (h : next_array_assignment (PatternElementList.cons le ls) (ArrayElementList.cons re rs) =
      some (v, l', r')) :
    l' = ls ∧ r' = rs ∧ alMeasure v ≤ arrSlotMeasure le := by
  cases le with
  | err => simp [next_array_assignment] at h
  | ok el =>
    cases re with
    | err => cases el <;> simp [next_array_assignment] at h
    | ok rel =>
      cases el with
      | otherElement =>
        simp [next_array_assignment] at h
        obtain ⟨hv, hl, hr⟩ := h
        exact ⟨hl.symm, hr.symm, by simp [← hv, alMeasure]⟩
      | jsArrayAssignmentPatternElement pat i =>
        cases rel with
        | otherElement =>
          simp [next_array_assignment] at h
          obtain ⟨hv, hl, hr⟩ := h
          exact ⟨hl.symm, hr.symm, by simp [← hv, alMeasure]⟩
        | anyJsExpression ex =>
          cases i with
          | true =>
            simp [next_array_assignment] at h
            obtain ⟨hv, hl, hr⟩ := h
            exact ⟨hl.symm, hr.symm, by simp [← hv, alMeasure]⟩
          | false =>
            cases pat with
            | err => simp [next_array_assignment] at h
            | ok p =>
              cases htf : AnyAssignmentLike.tryFrom p ex with
              | none => simp [next_array_assignment, htf] at h
              | some nal =>
                simp [next_array_assignment, htf] at h
                obtain ⟨hv, hl, hr⟩ := h
                refine ⟨hl.symm, hr.symm, ?_⟩
                rw [← hv]
                simpa [arrSlotMeasure, arrElemMeasure, srPatMeasure] using tryFrom_measure htf

set_option maxHeartbeats 1600000 in
theorem next_object_cons_spec {le : SRPatternMember} {ls : PatternMemberList}
    {re : SRObjectMember} {rs : ObjectMemberList} {v : AnyAssignmentLike}
    {l' : PatternMemberList} {r' : ObjectMemberList}
    (h : next_object_assignment (PatternMemberList.cons le ls) (ObjectMemberList.cons re rs) =
      some (v, l', r')) :
    l' = ls ∧ r' = rs ∧ alMeasure v ≤ objSlotMeasure le := by
  cases le with
  | err => (dsimp only [next_object_assignment] at h; simp at h)
  | ok el =>
    cases re with
    | err => (dsimp only [next_object_assignment] at h; simp at h)
    | ok rel =>
      cases el with
      | otherMember =>
        (dsimp only [next_object_assignment] at h; simp at h)
        obtain ⟨hv, hl, hr⟩ := h
        exact ⟨hl.symm, hr.symm, by simp [← hv, alMeasure]⟩
      | jsObjectAssignmentPatternShorthandProperty identifier =>
        cases rel with
        | jsShorthandPropertyObjectMember name =>
          cases identifier with
          | none => (dsimp only [next_object_assignment] at h; simp at h)
          | some li =>
            cases name with
            | none => (dsimp only [next_object_assignment] at h; simp at h)
            | some rn =>
              (dsimp only [next_object_assignment] at h; simp at h)
              obtain ⟨hv, hl, hr⟩ := h
              exact ⟨hl.symm, hr.symm, by
                simp [← hv, alMeasure, objSlotMeasure, objMemberMeasure]⟩
        | jsPropertyObjectMember k val =>
          (dsimp only [next_object_assignment] at h; simp at h)
          obtain ⟨hv, hl, hr⟩ := h
          exact ⟨hl.symm, hr.symm, by simp [← hv, alMeasure]⟩
        | otherMember =>
          (dsimp only [next_object_assignment] at h; simp at h)
          obtain ⟨hv, hl, hr⟩ := h
          exact ⟨hl.symm, hr.symm, by simp [← hv, alMeasure]⟩
      | jsObjectAssignmentPatternProperty k pat =>
        cases rel with
        | jsShorthandPropertyObjectMember name =>
          (dsimp only [next_object_assignment] at h; simp at h)
          obtain ⟨hv, hl, hr⟩ := h
          exact ⟨hl.symm, hr.symm, by simp [← hv, alMeasure]⟩
        | otherMember =>
          (dsimp only [next_object_assignment] at h; simp at h)
          obtain ⟨hv, hl, hr⟩ := h
          exact ⟨hl.symm, hr.symm, by simp [← hv, alMeasure]⟩
        | jsPropertyObjectMember k2 val =>
          cases pat with
          | err => (dsimp only [next_object_assignment] at h; simp at h)
          | ok p =>
            cases val with
            | err => (dsimp only [next_object_assignment] at h; simp at h)
            | ok rexp =>
              cases p with
              | jsArrayAssignmentPattern l2 =>
                cases rexp <;> (dsimp only [next_object_assignment] at h; simp at h) <;>
                  obtain ⟨hv, hl, hr⟩ := h <;>
                  exact ⟨hl.symm, hr.symm, by
                    simp [← hv, alMeasure, objSlotMeasure, objMemberMeasure, srPatMeasure,
                      patMeasure]⟩
              | jsObjectAssignmentPattern l2 =>
                cases rexp <;> (dsimp only [next_object_assignment] at h; simp at h) <;>
                  obtain ⟨hv, hl, hr⟩ := h <;>
                  exact ⟨hl.symm, hr.symm, by
                    simp [← hv, alMeasure, objSlotMeasure, objMemberMeasure, srPatMeasure,
                      patMeasure]⟩
              | anyJsAssignment asgn =>
                cases asgn with
                | jsIdentifierAssignment li =>
                  cases rexp with
                  | jsIdentifierExpression name =>
                    cases name with
                    | none => (dsimp only [next_object_assignment] at h; simp at h)
                    | some rn =>
                      (dsimp only [next_object_assignment] at h; simp at h)
                      obtain ⟨hv, hl, hr⟩ := h
                      exact ⟨hl.symm, hr.symm, by
                        simp [← hv, alMeasure, objSlotMeasure, objMemberMeasure, srPatMeasure,
                          patMeasure, assignmentMeasure]⟩
                  | anyJsLiteralExpression lit =>
                    (dsimp only [next_object_assignment] at h; simp at h)
                    obtain ⟨hv, hl, hr⟩ := h
                    exact ⟨hl.symm, hr.symm, by simp [← hv, alMeasure]⟩
                  | jsStaticMemberExpression o2 m2 =>
                    (dsimp only [next_object_assignment] at h; simp at h)
                    obtain ⟨hv, hl, hr⟩ := h
                    exact ⟨hl.symm, hr.symm, by simp [← hv, alMeasure]⟩
                  | jsComputedMemberExpression o2 m2 =>
                    (dsimp only [next_object_assignment] at h; simp at h)
                    obtain ⟨hv, hl, hr⟩ := h
                    exact ⟨hl.symm, hr.symm, by simp [← hv, alMeasure]⟩
                  | jsArrayExpression els =>
                    (dsimp only [next_object_assignment] at h; simp at h)
                    obtain ⟨hv, hl, hr⟩ := h
                    exact ⟨hl.symm, hr.symm, by simp [← hv, alMeasure]⟩
                  | jsObjectExpression ms =>
                    (dsimp only [next_object_assignment] at h; simp at h)
                    obtain ⟨hv, hl, hr⟩ := h
                    exact ⟨hl.symm, hr.symm, by simp [← hv, alMeasure]⟩
                  | otherExpression =>
                    (dsimp only [next_object_assignment] at h; simp at h)
                    obtain ⟨hv, hl, hr⟩ := h
                    exact ⟨hl.symm, hr.symm, by simp [← hv, alMeasure]⟩
                | jsStaticMemberAssignment o2 m2 =>
                  cases rexp <;> (dsimp only [next_object_assignment] at h; simp at h) <;>
                    obtain ⟨hv, hl, hr⟩ := h <;>
                    exact ⟨hl.symm, hr.symm, by simp [← hv, alMeasure]⟩
                | jsComputedMemberAssignment o2 m2 =>
                  cases rexp <;> (dsimp only [next_object_assignment] at h; simp at h) <;>
                    obtain ⟨hv, hl, hr⟩ := h <;>
                    exact ⟨hl.symm, hr.symm, by simp [← hv, alMeasure]⟩
                | otherAssignment =>
                  cases rexp <;> (dsimp only [next_object_assignment] at h; simp at h) <;>
                    obtain ⟨hv, hl, hr⟩ := h <;>
                    exact ⟨hl.symm, hr.symm, by simp [← hv, alMeasure]⟩

theorem queueMeasure_append (q₁ q₂ : List AnyAssignmentLike) :
    queueMeasure (q₁ ++ q₂) = queueMeasure q₁ + queueMeasure q₂ := by
  induction q₁ with
  | nil => simp [queueMeasure]
  | cons p rest ih => simp [queueMeasure, ih]; omega

theorem runAux_isSome :
    ∀ (fuel : Nat) (current : AnyAssignmentLike) (queue : List AnyAssignmentLike)
      (acc : List IdentifiersLike),
      alMeasure current + queueMeasure queue < fuel →
      (runAux fuel current queue acc).isSome = true
  | 0, current, queue, acc, h => absurd h (by omega)
  | Nat.succ n, current, queue, acc, h => by
    rw [runAux]
    cases current with
    | none =>
      dsimp only [next_assignment_like]
      cases queue with
      | nil => simp
      | cons p rest =>
        simp only [Option.isSome]
        apply runAux_isSome n p rest acc
        simp only [queueMeasure] at h
        omega
    | identifiers i =>
      dsimp only [next_assignment_like, AnyAssignmentLike.isNone]
      simp
    | arrays l r =>
      cases l with
      | nil =>
        cases r with
        | nil =>
          dsimp only [next_assignment_like, next_array_assignment,
            AnyAssignmentLike.has_sub_structures]
          simp only [if_neg Bool.false_ne_true]
          cases queue with
          | nil => simp
          | cons p rest =>
            apply runAux_isSome n p rest acc
            simp only [queueMeasure] at h
            omega
        | cons re rs =>
          dsimp only [next_assignment_like, next_array_assignment,
            AnyAssignmentLike.has_sub_structures]
          simp only [if_neg Bool.false_ne_true]
          cases queue with
          | nil => simp
          | cons p rest =>
            apply runAux_isSome n p rest acc
            simp only [queueMeasure] at h
            omega
      | cons le ls =>
        cases r with
        | nil =>
          dsimp only [next_assignment_like, next_array_assignment,
            AnyAssignmentLike.has_sub_structures]
          simp only [if_neg Bool.false_ne_true]
          cases queue with
          | nil => simp
          | cons p rest =>
            apply runAux_isSome n p rest acc
            simp only [queueMeasure] at h
            omega
        | cons re rs =>
          have e0 : alMeasure (AnyAssignmentLike.arrays (PatternElementList.cons le ls)
              (ArrayElementList.cons re rs)) =
              3 + arrSlotMeasure le + 2 * arrMeasure ls := rfl
          rw [e0] at h
          cases hna : next_array_assignment (PatternElementList.cons le ls)
              (ArrayElementList.cons re rs) with
          | none => simp [next_assignment_like, hna]
          | some t =>
            obtain ⟨v, l', r'⟩ := t
            obtain ⟨rfl, rfl, hm⟩ := next_array_cons_spec hna
            cases v with
            | none =>
              simp only [next_assignment_like, hna,
                AnyAssignmentLike.has_sub_structures, if_neg Bool.false_ne_true]
              cases queue with
              | nil => simp
              | cons p rest =>
                simp only [Option.isSome]
                apply runAux_isSome n p rest acc
                simp only [queueMeasure] at h
                omega
            | identifiers i =>
              simp [next_assignment_like, hna, AnyAssignmentLike.has_sub_structures,
                AnyAssignmentLike.isNone]
              apply runAux_isSome n _ _ _
              have e1 : alMeasure (AnyAssignmentLike.arrays l' r') = arrMeasure l' := rfl
              rw [e1]
              omega
            | arrays l2 r2 =>
              simp only [next_assignment_like, hna, AnyAssignmentLike.has_sub_structures,
                if_true]
              apply runAux_isSome n _ _ acc
              rw [queueMeasure_append, queueMeasure_append]
              have e1 : alMeasure (AnyAssignmentLike.arrays l2 r2) = arrMeasure l2 := rfl
              have e2 : queueMeasure [AnyAssignmentLike.arrays l' r'] =
                  arrMeasure l' + 1 := rfl
              have e3 : alMeasure (AnyAssignmentLike.arrays l2 r2) ≤ arrSlotMeasure le := hm
              rw [e1] at e3 ⊢
              rw [e2]
              omega
            | object l2 r2 =>
              simp only [next_assignment_like, hna, AnyAssignmentLike.has_sub_structures,
                if_true]
              apply runAux_isSome n _ _ acc
              rw [queueMeasure_append, queueMeasure_append]
              have e1 : alMeasure (AnyAssignmentLike.object l2 r2) = objMeasure l2 := rfl
              have e2 : queueMeasure [AnyAssignmentLike.arrays l' r'] =
                  arrMeasure l' + 1 := rfl
              have e3 : alMeasure (AnyAssignmentLike.object l2 r2) ≤ arrSlotMeasure le := hm
              rw [e1] at e3 ⊢
              rw [e2]
              omega
            | staticExpression lw rw0 =>
              simp only [next_assignment_like, hna, AnyAssignmentLike.has_sub_structures,
                if_neg Bool.false_ne_true]
              apply runAux_isSome n _ _ acc
              rw [queueMeasure_append]
              have e2 : queueMeasure [AnyAssignmentLike.arrays l' r'] =
                  arrMeasure l' + 1 := rfl
              rw [e2]
              omega
    | object l r =>
      cases l with
      | nil =>
        cases r with
        | nil =>
          dsimp only [next_assignment_like, next_object_assignment,
            AnyAssignmentLike.has_sub_structures]
          simp only [if_neg Bool.false_ne_true]
          cases queue with
          | nil => simp
          | cons p rest =>
            apply runAux_isSome n p rest acc
            simp only [queueMeasure] at h
            omega
        | cons re rs =>
          dsimp only [next_assignment_like, next_object_assignment,
            AnyAssignmentLike.has_sub_structures]
          simp only [if_neg Bool.false_ne_true]
          cases queue with
          | nil => simp
          | cons p rest =>
            apply runAux_isSome n p rest acc
            simp only [queueMeasure] at h
            omega
      | cons le ls =>
        cases r with
        | nil =>
          dsimp only [next_assignment_like, next_object_assignment,
            AnyAssignmentLike.has_sub_structures]
          simp only [if_neg Bool.false_ne_true]
          cases queue with
          | nil => simp
          | cons p rest =>
            apply runAux_isSome n p rest acc
            simp only [queueMeasure] at h
            omega
        | cons re rs =>
          have e0 : alMeasure (AnyAssignmentLike.object (PatternMemberList.cons le ls)
              (ObjectMemberList.cons re rs)) =
              3 + objSlotMeasure le + 2 * objMeasure ls := rfl
          rw [e0] at h
          cases hna : next_object_assignment (PatternMemberList.cons le ls)
              (ObjectMemberList.cons re rs) with
          | none => simp [next_assignment_like, hna]
          | some t =>
            obtain ⟨v, l', r'⟩ := t
            obtain ⟨rfl, rfl, hm⟩ := next_object_cons_spec hna
            cases v with
            | none =>
              simp only [next_assignment_like, hna,
                AnyAssignmentLike.has_sub_structures, if_neg Bool.false_ne_true]
              cases queue with
              | nil => simp
              | cons p rest =>
                simp only [Option.isSome]
                apply runAux_isSome n p rest acc
                simp only [queueMeasure] at h
                omega
            | identifiers i =>
              simp [next_assignment_like, hna, AnyAssignmentLike.has_sub_structures,
                AnyAssignmentLike.isNone]
              apply runAux_isSome n _ _ _
              have e1 : alMeasure (AnyAssignmentLike.object l' r') = objMeasure l' := rfl
              rw [e1]
              omega
            | arrays l2 r2 =>
              simp only [next_assignment_like, hna, AnyAssignmentLike.has_sub_structures,
                if_true]
              apply runAux_isSome n _ _ acc
              rw [queueMeasure_append, queueMeasure_append]
              have e1 : alMeasure (AnyAssignmentLike.arrays l2 r2) = arrMeasure l2 := rfl
              have e2 : queueMeasure [AnyAssignmentLike.object l' r'] =
                  objMeasure l' + 1 := rfl
              have e3 : alMeasure (AnyAssignmentLike.arrays l2 r2) ≤ objSlotMeasure le := hm
              rw [e1] at e3 ⊢
              rw [e2]
              omega
            | object l2 r2 =>
              simp only [next_assignment_like, hna, AnyAssignmentLike.has_sub_structures,
                if_true]
              apply runAux_isSome n _ _ acc
              rw [queueMeasure_append, queueMeasure_append]
              have e1 : alMeasure (AnyAssignmentLike.object l2 r2) = objMeasure l2 := rfl
              have e2 : queueMeasure [AnyAssignmentLike.object l' r'] =
                  objMeasure l' + 1 := rfl
              have e3 : alMeasure (AnyAssignmentLike.object l2 r2) ≤ objSlotMeasure le := hm
              rw [e1] at e3 ⊢
              rw [e2]
              omega
            | staticExpression lw rw0 =>
              simp only [next_assignment_like, hna, AnyAssignmentLike.has_sub_structures,
                if_neg Bool.false_ne_true]
              apply runAux_isSome n _ _ acc
              rw [queueMeasure_append]
              have e2 : queueMeasure [AnyAssignmentLike.object l' r'] =
                  objMeasure l' + 1 := rfl
              rw [e2]
              omega
    | staticExpression lw rw0 =>
      cases hns : next_static_expression (wsize lw + 1) lw rw0 with
      | none => simp [next_assignment_like, hns]
      | some t =>
        obtain ⟨v, lw', rw'⟩ := t
        rcases next_static_shape _ hns with rfl | ⟨i, rfl, hld, hld'⟩
        · simp only [next_assignment_like, hns]
          cases queue with
          | nil => simp
          | cons p rest =>
            simp only [Option.isSome]
            apply runAux_isSome n p rest acc
            simp only [queueMeasure] at h
            omega
        · simp [next_assignment_like, hns, AnyAssignmentLike.isNone]
          apply runAux_isSome n _ _ _
          have e1 : alMeasure (AnyAssignmentLike.staticExpression lw rw0) = 3 := by
            simp [alMeasure, hld]
          have e2 : alMeasure (AnyAssignmentLike.staticExpression lw' rw') = 1 := by
            simp [alMeasure, hld']
          rw [e1] at h
          rw [e2]
          omega

theorem compare_assignment_like_isSome (al : AnyAssignmentLike) :
    (compare_assignment_like al).isSome = true := by
  rw [compare_assignment_like]
  split
  · simp
  · apply runAux_isSome
    simp [queueMeasure]

theorem run_isSome (node : JsAssignmentExpression) :
    (NoSelfAssign.run node).isSome = true := by
  obtain ⟨l, r, op⟩ := node
  cases op with
  | none => simp [NoSelfAssign.run]
  | some op =>
    cases he : isEligibleOperator op with
    | false => simp [NoSelfAssign.run, he]
    | true =>
      cases l with
      | none => simp [NoSelfAssign.run, he]
      | some l =>
        cases r with
        | none => simp [NoSelfAssign.run, he]
        | some r =>
          cases ht : AnyAssignmentLike.tryFrom l r with
          | none => simp [NoSelfAssign.run, he, ht]
          | some pair => simp [NoSelfAssign.run, he, ht, compare_assignment_like_isSome]

/-! ## Claim theorems -/

/-- C1, failing input: on `[[], a] = [[], a]` the detector yields the signal
for the single matching slot `a` twice, not once. The suspended parent
`Arrays` shape is pushed onto the backlog twice when a slot produces a nested
composite — once by `next_assignment_like` (`has_sub_structures`) and once by
the sub-structure arm of `<SameIdentifiers as Iterator>::next` — so every slot
after the nested composite is re-traversed and re-reported. -/
theorem noSelfAssign_duplicate_signal_after_nested_composite :
    NoSelfAssign.run nestedThenMatchAssignment =
      some [IdentifiersLike.identifierAndReference (identAssign "a") (refIdent "a"),
        IdentifiersLike.identifierAndReference (identAssign "a") (refIdent "a")] := rfl

/-- C6: the detector is total. `run` returns a signal list on every input
node, including nodes with missing children: the fuel supplied by
`compare_assignment_like` always suffices, and a node whose operator is
missing, or whose member-access operands have missing children, yields the
empty list rather than a failure. -/
theorem noSelfAssign_run_total :
    (∀ node : JsAssignmentExpression, (NoSelfAssign.run node).isSome = true) ∧
    NoSelfAssign.run errChildrenAssignment = some [] ∧
    NoSelfAssign.run missingOperatorAssignment = some [] :=
  ⟨run_isSome, rfl, rfl⟩

/-- C7, counterexample: on
`[[], [], [], [], [], a] = [[], [], [], [], [], a]` the traversal yields 32
leaf pairs (the slot `a` is replayed once per backlog duplication, doubling at
every nested composite), while the two operand trees together have only 21
nodes — the yielded sequence is not bounded by the total node count. -/
theorem noSelfAssign_signal_count_exceeds_node_count :
    (NoSelfAssign.run fiveNestedAssignment).map List.length = some 32 ∧
    operandNodeCount fiveNestedAssignment = 21 ∧ ¬(32 ≤ 21) :=
  ⟨rfl, rfl, by decide⟩

/-- C7, amended: the traversal of `SameIdentifiers` always terminates — from
any shape, queue, and accumulator, `runAux` completes (returns a signal list
rather than running out of fuel) within `alMeasure current + queueMeasure
queue + 1` loop iterations, so the sequence of yielded leaf pairs is finite
for every input; its length, however, is not bounded by the operand node
count. -/
theorem noSelfAssign_traversal_terminates
    (current : AnyAssignmentLike) (queue : List AnyAssignmentLike)
    (acc : List IdentifiersLike) :
    (runAux (alMeasure current + queueMeasure queue + 1) current queue acc).isSome = true :=
  runAux_isSome _ current queue acc (by omega)

/-- C8: the detector is deterministic and stateless. `run` is a pure function
of the queried node, so re-running it on the same node gives the same signal
list, and in a batch of invocations each result depends only on the
corresponding node, not on the other invocations. -/
theorem noSelfAssign_run_deterministic (node : JsAssignmentExpression)
    (nodes : List JsAssignmentExpression) (i : Nat) :
    NoSelfAssign.run node = NoSelfAssign.run node ∧
    (nodes.map NoSelfAssign.run)[i]? = nodes[i]?.map NoSelfAssign.run :=
  ⟨rfl, by simp [List.getElem?_map]⟩

/-- C10: among literal leaf pairs only string/string and number/number pairs
can compare equal: boolean, null, bigint and regex pairs are never equal,
whatever their tokens, and `a[true].x = a[true].x` yields no signal even
though the two `true` tokens are textually identical. -/
theorem noSelfAssign_only_string_and_number_literals_match :
    (∀ t1 t2 : Option JsSyntaxToken,
      with_same_identifiers (IdentifiersLike.literal
        (AnyJsLiteralExpression.jsBooleanLiteralExpression t1)
        (AnyJsLiteralExpression.jsBooleanLiteralExpression t2)) = Option.none) ∧
    (∀ t1 t2 : Option JsSyntaxToken,
      with_same_identifiers (IdentifiersLike.literal
        (AnyJsLiteralExpression.jsNullLiteralExpression t1)
        (AnyJsLiteralExpression.jsNullLiteralExpression t2)) = Option.none) ∧
    (∀ t1 t2 : Option JsSyntaxToken,
      with_same_identifiers (IdentifiersLike.literal
        (AnyJsLiteralExpression.jsBigintLiteralExpression t1)
        (AnyJsLiteralExpression.jsBigintLiteralExpression t2)) = Option.none) ∧
    (∀ t1 t2 : Option JsSyntaxToken,
      with_same_identifiers (IdentifiersLike.literal
        (AnyJsLiteralExpression.jsRegexLiteralExpression t1)
        (AnyJsLiteralExpression.jsRegexLiteralExpression t2)) = Option.none) ∧
    NoSelfAssign.run booleanKeyChainAssignment = some [] :=
  ⟨fun _ _ => rfl, fun _ _ => rfl, fun _ _ => rfl, fun _ _ => rfl, rfl⟩

/-- C3: array-destructuring slots. `[x] = [y]` yields exactly one signal when
`x` and `y` are the same identifier and none otherwise; `[a, b] = [b, a]`
yields no signal (positions differ); `[x = default] = [y]` yields no signal
whatever the names (default initializer present). -/
theorem noSelfAssign_array_destructuring (x y : String) :
    (NoSelfAssign.run (singleSlotAssignment x y) =
      if x = y
      then some [IdentifiersLike.identifierAndReference (identAssign x) (refIdent y)]
      else some []) ∧
    NoSelfAssign.run swappedPairAssignment = some [] ∧
    NoSelfAssign.run (defaultSlotAssignment x y) = some [] := by
  refine ⟨?_, rfl, rfl⟩
  by_cases hxy : x = y
  · subst hxy
    simp [NoSelfAssign.run, singleSlotAssignment, mkAssignment, isEligibleOperator,
      arrayPatternOf, arrayExprOf, arrayPatternElement, patternElementsOf, arrayElementsOf,
      arrayElement, identPattern, identExpr, identAssign, refIdent, identToken,
      AnyAssignmentLike.tryFrom, compare_assignment_like, AnyAssignmentLike.isNone,
      alMeasure, arrMeasure, arrSlotMeasure, arrElemMeasure, srPatMeasure, patMeasure,
      assignmentMeasure, runAux, next_assignment_like, next_array_assignment,
      AnyAssignmentLike.has_sub_structures, with_same_identifiers, inner_string_text,
      Option.bind]
  · simp [NoSelfAssign.run, singleSlotAssignment, mkAssignment, isEligibleOperator,
      arrayPatternOf, arrayExprOf, arrayPatternElement, patternElementsOf, arrayElementsOf,
      arrayElement, identPattern, identExpr, identAssign, refIdent, identToken,
      AnyAssignmentLike.tryFrom, compare_assignment_like, AnyAssignmentLike.isNone,
      alMeasure, arrMeasure, arrSlotMeasure, arrElemMeasure, srPatMeasure, patMeasure,
      assignmentMeasure, runAux, next_assignment_like, next_array_assignment,
      AnyAssignmentLike.has_sub_structures, with_same_identifiers, inner_string_text,
      Option.bind, hxy]

/-- C9: when a `JsObjectAssignmentPatternProperty` is compared against a
`JsPropertyObjectMember` (the non-shorthand `key: value` form), only the
value/pattern pair is compared — the two property keys are never inspected,
whatever tokens (or missing tokens) they hold; in particular
`({a: b} = {c: b})`, whose keys differ, still yields the signal on `b`. -/
theorem noSelfAssign_object_property_keys_ignored
    (keyL keyR : Option JsSyntaxToken) (vL vR : String) :
    (NoSelfAssign.run (propertyPairAssignment keyL keyR vL vR) =
      if vL = vR
      then some [IdentifiersLike.identifierAndReference (identAssign vL) (refIdent vR)]
      else some []) ∧
    NoSelfAssign.run
        (propertyPairAssignment (some (identToken "a")) (some (identToken "c")) "b" "b") =
      some [IdentifiersLike.identifierAndReference (identAssign "b") (refIdent "b")] := by
  refine ⟨?_, rfl⟩
  by_cases hv : vL = vR
  · subst hv
    simp [NoSelfAssign.run, propertyPairAssignment, mkAssignment, isEligibleOperator,
      patternMembersOf, objectMembersOf, identPattern, identExpr, identAssign, refIdent,
      identToken, AnyAssignmentLike.tryFrom, compare_assignment_like,
      AnyAssignmentLike.isNone, alMeasure, objMeasure, objSlotMeasure, objMemberMeasure,
      srPatMeasure, patMeasure, assignmentMeasure, runAux, next_assignment_like,
      next_object_assignment, AnyAssignmentLike.has_sub_structures,
      with_same_identifiers, inner_string_text, Option.bind]
  · simp [NoSelfAssign.run, propertyPairAssignment, mkAssignment, isEligibleOperator,
      patternMembersOf, objectMembersOf, identPattern, identExpr, identAssign, refIdent,
      identToken, AnyAssignmentLike.tryFrom, compare_assignment_like,
      AnyAssignmentLike.isNone, alMeasure, objMeasure, objSlotMeasure, objMemberMeasure,
      srPatMeasure, patMeasure, assignmentMeasure, runAux, next_assignment_like,
      next_object_assignment, AnyAssignmentLike.has_sub_structures,
      with_same_identifiers, inner_string_text, Option.bind, hv]

/-- C2: member-chain comparison for two-level chains `base[key].mem`. A signal
is produced exactly when the member names, the computed keys, and the terminal
base references all compare equal, and the reported leaf pair is the original
(outermost) member-name pair; any mismatch (names, keys, or bases) yields no
signal. With literal keys, `a[3].foo = a[3].foo` yields the one signal on
`foo` and `a[3].foo = a[4].foo` yields none. -/
theorem noSelfAssign_member_chain (baseL keyL memL baseR keyR memR : String) :
    (NoSelfAssign.run (chainAssignment baseL keyL memL baseR keyR memR) =
      if memL = memR ∧ keyL = keyR ∧ baseL = baseR
      then some [IdentifiersLike.name (jsNameOf memL) (jsNameOf memR)]
      else some []) ∧
    NoSelfAssign.run (numericKeyChainAssignment "3" "3") =
      some [IdentifiersLike.name (jsNameOf "foo") (jsNameOf "foo")] ∧
    NoSelfAssign.run (numericKeyChainAssignment "3" "4") = some [] := by
  refine ⟨?_, rfl, rfl⟩
  by_cases h1 : memL = memR
  · by_cases h2 : keyL = keyR
    · by_cases h3 : baseL = baseR
      · subst h1; subst h2; subst h3
        simp [NoSelfAssign.run, chainAssignment, chainTarget, chainValue,
          computedIdentExpr, staticMemberName, mkAssignment, isEligibleOperator,
          identPattern, identExpr, identAssign, refIdent, identToken, jsNameOf,
          AnyAssignmentLike.tryFrom, from_static_member_assignment,
          from_static_member_expression, compare_assignment_like,
          AnyAssignmentLike.isNone, alMeasure, runAux, next_assignment_like,
          next_static_expression, wsize, sizeE, sizeSRExpr, walkerNext,
          AnyAssignmentExpressionLike.member, AnyAssignmentExpressionLike.object,
          computedMemberName, IdentifiersLike.tryFromNames, with_same_identifiers,
          inner_string_text, Option.bind]
      · subst h1; subst h2
        simp [NoSelfAssign.run, chainAssignment, chainTarget, chainValue,
          computedIdentExpr, staticMemberName, mkAssignment, isEligibleOperator,
          identPattern, identExpr, identAssign, refIdent, identToken, jsNameOf,
          AnyAssignmentLike.tryFrom, from_static_member_assignment,
          from_static_member_expression, compare_assignment_like,
          AnyAssignmentLike.isNone, alMeasure, runAux, next_assignment_like,
          next_static_expression, wsize, sizeE, sizeSRExpr, walkerNext,
          AnyAssignmentExpressionLike.member, AnyAssignmentExpressionLike.object,
          computedMemberName, IdentifiersLike.tryFromNames, with_same_identifiers,
          inner_string_text, Option.bind, h3]
    · subst h1
      simp [NoSelfAssign.run, chainAssignment, chainTarget, chainValue,
        computedIdentExpr, staticMemberName, mkAssignment, isEligibleOperator,
        identPattern, identExpr, identAssign, refIdent, identToken, jsNameOf,
        AnyAssignmentLike.tryFrom, from_static_member_assignment,
        from_static_member_expression, compare_assignment_like,
        AnyAssignmentLike.isNone, alMeasure, runAux, next_assignment_like,
        next_static_expression, wsize, sizeE, sizeSRExpr, walkerNext,
        AnyAssignmentExpressionLike.member, AnyAssignmentExpressionLike.object,
        computedMemberName, IdentifiersLike.tryFromNames, with_same_identifiers,
        inner_string_text, Option.bind, h2]
  · simp [NoSelfAssign.run, chainAssignment, chainTarget, chainValue,
      computedIdentExpr, staticMemberName, mkAssignment, isEligibleOperator,
      identPattern, identExpr, identAssign, refIdent, identToken, jsNameOf,
      AnyAssignmentLike.tryFrom, from_static_member_assignment,
      from_static_member_expression, compare_assignment_like,
      AnyAssignmentLike.isNone, alMeasure, runAux, next_assignment_like,
      next_static_expression, wsize, sizeE, sizeSRExpr, walkerNext,
      AnyAssignmentExpressionLike.member, AnyAssignmentExpressionLike.object,
      computedMemberName, IdentifiersLike.tryFromNames, with_same_identifiers,
      inner_string_text, Option.bind, h1]

/-- C5: leaf equality rules. String-literal pairs compare by the unquoted
inner text of their tokens (so differently-quoted spellings of the same inner
text are equal); number-literal pairs compare by raw source text, so `1` and
`1.0` are not equal; a string literal paired with a number literal is never
equal, in either order; and identifier, member-name, reference, and
private-name pairs are equal exactly when their trimmed token texts are
equal. -/
theorem noSelfAssign_leaf_equality :
    (∀ s1 s2 : String,
      (with_same_identifiers (IdentifiersLike.literal
        (AnyJsLiteralExpression.jsStringLiteralExpression (some (strToken s1)))
        (AnyJsLiteralExpression.jsStringLiteralExpression (some (strToken s2)))) = some () ↔
        (s1.drop 1).dropRight 1 = (s2.drop 1).dropRight 1)) ∧
    with_same_identifiers (IdentifiersLike.literal
      (AnyJsLiteralExpression.jsStringLiteralExpression (some (strToken "'x'")))
      (AnyJsLiteralExpression.jsStringLiteralExpression (some (strToken "\"x\"")))) =
      some () ∧
    (∀ n1 n2 : String,
      (with_same_identifiers (IdentifiersLike.literal
        (AnyJsLiteralExpression.jsNumberLiteralExpression (some (identToken n1)))
        (AnyJsLiteralExpression.jsNumberLiteralExpression (some (identToken n2)))) = some () ↔
        n1 = n2)) ∧
    with_same_identifiers (IdentifiersLike.literal
      (AnyJsLiteralExpression.jsNumberLiteralExpression (some (identToken "1")))
      (AnyJsLiteralExpression.jsNumberLiteralExpression (some (identToken "1.0")))) =
      Option.none ∧
    (∀ t1 t2 : Option JsSyntaxToken,
      with_same_identifiers (IdentifiersLike.literal
        (AnyJsLiteralExpression.jsStringLiteralExpression t1)
        (AnyJsLiteralExpression.jsNumberLiteralExpression t2)) = Option.none) ∧
    (∀ t1 t2 : Option JsSyntaxToken,
      with_same_identifiers (IdentifiersLike.literal
        (AnyJsLiteralExpression.jsNumberLiteralExpression t1)
        (AnyJsLiteralExpression.jsStringLiteralExpression t2)) = Option.none) ∧
    (∀ s t : String,
      (with_same_identifiers (IdentifiersLike.identifierAndReference
        ⟨some (identToken s)⟩ ⟨some (identToken t)⟩) = some () ↔ s = t)) ∧
    (∀ s t : String,
      (with_same_identifiers (IdentifiersLike.name
        ⟨some (identToken s)⟩ ⟨some (identToken t)⟩) = some () ↔ s = t)) ∧
    (∀ s t : String,
      (with_same_identifiers (IdentifiersLike.references
        ⟨some (identToken s)⟩ ⟨some (identToken t)⟩) = some () ↔ s = t)) ∧
    (∀ s t : String,
      (with_same_identifiers (IdentifiersLike.privateName
        ⟨some (identToken s)⟩ ⟨some (identToken t)⟩) = some () ↔ s = t)) := by
  refine ⟨?_, rfl, ?_, rfl, fun _ _ => rfl, fun _ _ => rfl, ?_, ?_, ?_, ?_⟩ <;>
    intro a b <;>
    simp [with_same_identifiers, inner_string_text, strToken, identToken]

/-- C4: the operator filter. Any assignment expression whose operator is not
plain `=`, `&&=`, `||=`, or `??=` yields the empty signal list; `a &= a`
yields no signal while `a = a` yields exactly one. -/
theorem noSelfAssign_operator_filter :
    (∀ (node : JsAssignmentExpression) (op : JsAssignmentOperator),
      node.operator = some op → isEligibleOperator op = false →
      NoSelfAssign.run node = some []) ∧
    NoSelfAssign.run bitwiseAndSelfAssignment = some [] ∧
    NoSelfAssign.run plainSelfAssignment =
      some [IdentifiersLike.identifierAndReference (identAssign "a") (refIdent "a")] := by
  refine ⟨?_, rfl, rfl⟩
  intro node op hop he
  obtain ⟨l, r, o⟩ := node
  simp only [JsAssignmentExpression.operator] at hop
  subst hop
  simp [NoSelfAssign.run, he]

/-- Witness for C4's theorem: instantiating the filter at `a &= a` with the
bitwise-AND-assign operator. -/
theorem noSelfAssign_operator_filter_witness :
    NoSelfAssign.run bitwiseAndSelfAssignment = some [] :=
  noSelfAssign_operator_filter.1 bitwiseAndSelfAssignment
    JsAssignmentOperator.bitwiseAndAssign rfl rfl
